import Mathlib

/-!
# Verification of the bedrock-cost-keeper metering core

A shallow embedding, in Lean 4, of the parts of the bedrock-cost-keeper
service that the specification's claims are about:

* the shard-selection hash (`MeteringService._select_shard`: SHA-256 of the
  request-id bytes, taken as a full 256-bit integer, modulo the shard count);
* the conditional usage-shard update (`DynamoDBBridge.update_usage_shard`);
* daily-total reads (`DynamoDBBridge.get_daily_total`, `get_usage_shards`);
* the sticky-fallback conditional write (`DynamoDBBridge.put_sticky_state`);
* the model-selection handler (`get_model_selection`);
* cost derivation (`PricingService.calculate_cost`);
* the usage-submission pipeline (`MeteringService.submit_usage`) together
  with the request-level timestamp validator
  (`UsageSubmissionRequest.validate_timestamp`);
* the auth endpoints (`obtain_token`, `refresh_token`) and the claims they
  mint (`JWTHandler.create_access_token`).

Machine integers in the Python source are unbounded (`int`), so they embed
as `Nat`/`Int` directly; 32-bit arithmetic inside SHA-256 is `Nat` with an
explicit `% 2^32`.  The key-value store is embedded as explicit maps from
key strings to optional items, and each store operation is a pure function
from store to store.  External collaborators (bcrypt, the JWT library, the
wall clock) are parameters of the definitions that use them.
-/

namespace BCK

/-! ## SHA-256 over `Nat`

`MeteringService._select_shard` computes
`int(hashlib.sha256(request_id.encode()).hexdigest(), 16) % shard_count`.
We embed SHA-256 (FIPS 180-4) itself, operating on byte lists with 32-bit
words represented as `Nat` reduced modulo `2^32`, and the digest read back
as the full 256-bit big-endian integer — exactly the value
`int(hexdigest, 16)` denotes. -/

/-- Truncate to a 32-bit word. -/
def w32 (n : Nat) : Nat := n % 4294967296

/-- Rotate a 32-bit word right by `n` positions. -/
def rotr32 (x n : Nat) : Nat := w32 ((x >>> n) ||| (x <<< (32 - n)))

/-- UTF-8 encoding of one unicode code point (what Python's
`str.encode()` produces per character). -/
def utf8EncodeChar (c : Char) : List Nat :=
  let n := c.toNat
  if n < 128 then [n]
  else if n < 2048 then [192 + n / 64, 128 + n % 64]
  else if n < 65536 then [224 + n / 4096, 128 + (n / 64) % 64, 128 + n % 64]
  else [240 + n / 262144, 128 + (n / 4096) % 64, 128 + (n / 64) % 64, 128 + n % 64]

/-- UTF-8 bytes of a string (`request_id.encode()` in the source). -/
def utf8Bytes (s : String) : List Nat :=
  (s.data.map utf8EncodeChar).foldr (· ++ ·) []

/-- SHA-256 padding: append `0x80`, zero bytes to 56 mod 64, then the
bit length as an 8-byte big-endian integer. -/
def sha256Pad (msg : List Nat) : List Nat :=
  let ml := msg.length * 8
  let k := (119 - msg.length % 64) % 64
  msg ++ [128] ++ List.replicate k 0 ++
    ((List.range 8).map fun i => (ml >>> (8 * (7 - i))) % 256)

/-- Big-endian 4-byte groups to 32-bit words. -/
def bytesToWords : List Nat → List Nat
  | b0 :: b1 :: b2 :: b3 :: rest =>
      (b0 * 16777216 + b1 * 65536 + b2 * 256 + b3) :: bytesToWords rest
  | _ => []

/-- Consume `blocks` 64-byte blocks from the front of the byte list,
compressing each into the running hash (structural recursion on the
block count so that concrete digests reduce in the kernel). -/
def sha256Loop (compress : List Nat → List Nat → List Nat) :
    Nat → List Nat → List Nat → List Nat
  | 0, h, _ => h
  | n + 1, h, bytes =>
      sha256Loop compress n (compress h (bytes.take 64)) (bytes.drop 64)

/-- The 64 round constants of FIPS 180-4 (decimal). -/
def sha256K : List Nat :=
  [1116352408, 1899447441, 3049323471, 3921009573, 961987163,
   1508970993, 2453635748, 2870763221, 3624381080, 310598401,
   607225278, 1426881987, 1925078388, 2162078206, 2614888103,
   3248222580, 3835390401, 4022224774, 264347078, 604807628,
   770255983, 1249150122, 1555081692, 1996064986, 2554220882,
   2821834349, 2952996808, 3210313671, 3336571891, 3584528711,
   113926993, 338241895, 666307205, 773529912, 1294757372,
   1396182291, 1695183700, 1986661051, 2177026350, 2456956037,
   2730485921, 2820302411, 3259730800, 3345764771, 3516065817,
   3600352804, 4094571909, 275423344, 430227734, 506948616,
   659060556, 883997877, 958139571, 1322822218, 1537002063,
   1747873779, 1955562222, 2024104815, 2227730452, 2361852424,
   2428436474, 2756734187, 3204031479, 3329325298]

/-- The initial hash state of FIPS 180-4 (decimal). -/
def sha256H0 : List Nat :=
  [1779033703, 3144134277, 1013904242, 2773480762,
   1359893119, 2600822924, 528734635, 1541459225]

/-- Extend the 16 message words of one block to the 64-entry schedule. -/
def sha256Schedule (ws : List Nat) : List Nat :=
  (List.range 48).foldl
    (fun w j =>
      let i := j + 16
      let x15 := w.getD (i - 15) 0
      let x2 := w.getD (i - 2) 0
      let s0 := (rotr32 x15 7) ^^^ (rotr32 x15 18) ^^^ (x15 >>> 3)
      let s1 := (rotr32 x2 17) ^^^ (rotr32 x2 19) ^^^ (x2 >>> 10)
      w ++ [w32 (w.getD (i - 16) 0 + s0 + w.getD (i - 7) 0 + s1)])
    ws

/-- One SHA-256 compression round. -/
def sha256Round (st : List Nat) (kw : Nat × Nat) : List Nat :=
  let a := st.getD 0 0; let b := st.getD 1 0; let c := st.getD 2 0
  let d := st.getD 3 0; let e := st.getD 4 0; let f := st.getD 5 0
  let g := st.getD 6 0; let h := st.getD 7 0
  let s1 := (rotr32 e 6) ^^^ (rotr32 e 11) ^^^ (rotr32 e 25)
  let ch := (e &&& f) ^^^ ((4294967295 - e) &&& g)
  let t1 := w32 (h + s1 + ch + kw.1 + kw.2)
  let s0 := (rotr32 a 2) ^^^ (rotr32 a 13) ^^^ (rotr32 a 22)
  let mj := (a &&& b) ^^^ (a &&& c) ^^^ (b &&& c)
  let t2 := w32 (s0 + mj)
  [w32 (t1 + t2), a, b, c, w32 (d + t1), e, f, g]

/-- Compress one 64-byte block into the running hash. -/
def sha256Compress (h : List Nat) (block : List Nat) : List Nat :=
  let w := sha256Schedule (bytesToWords block)
  let final := (sha256K.zip w).foldl sha256Round h
  (List.range 8).map fun i => w32 (h.getD i 0 + final.getD i 0)

/-- SHA-256 digest of a byte list, as the 256-bit big-endian integer. -/
def sha256Nat (msg : List Nat) : Nat :=
  let padded := sha256Pad msg
  let h := sha256Loop sha256Compress (padded.length / 64) sha256H0 padded
  h.foldl (fun acc x => acc * 4294967296 + x) 0

/-- `MeteringService._select_shard`:
`int(hashlib.sha256(request_id.encode()).hexdigest(), 16) % shard_count`. -/
def select_shard (request_id : String) (shard_count : Nat) : Nat :=
  sha256Nat (utf8Bytes request_id) % shard_count

/-! ## The key-value store

DynamoDB tables are embedded as association lists from a
(partition key, sort key) pair of strings to an item.  `kvGet` is
`get_item`, `kvSet` a whole-item `put`/`update` at one key.  Association
lists (rather than functions) keep stores decidably comparable, which the
concrete counterexamples rely on. -/

/-- A DynamoDB key: (partition key, sort key). -/
abbrev Key := String × String

/-- `get_item`: first binding for the key, if any. -/
def kvGet {α : Type} (store : List (Key × α)) (k : Key) : Option α :=
  (store.find? fun p => decide (p.1 = k)).map Prod.snd

/-- Replace (or create) the item at a key. -/
def kvSet {α : Type} (store : List (Key × α)) (k : Key) (v : α) :
    List (Key × α) :=
  (k, v) :: store.filter fun p => !(decide (p.1 = k))

/-! ## Usage shards and daily totals -/

/-- One usage-shard cell: the item at
`(scope#LABEL#label#SH#i, day)` in the sharded aggregation table.
`update_usage_shard` `ADD`s to the four counters and to the
`request_ids` set. -/
structure UsageCell where
  cost_usd_micros : Nat
  input_tokens : Nat
  output_tokens : Nat
  requests : Nat
  request_ids : List String
  updated_at_epoch : Nat
deriving DecidableEq

/-- The sharded usage-aggregation table. -/
abbrev UsageStore := List (Key × UsageCell)

/-- A daily-total record: the item at `(scope#LABEL#label, day)` in the
materialised `DailyTotal` table (no `request_ids`). -/
structure TotalsCell where
  cost_usd_micros : Nat
  input_tokens : Nat
  output_tokens : Nat
  requests : Nat
deriving DecidableEq

/-- The materialised daily-total table. -/
abbrev TotalsStore := List (Key × TotalsCell)

/-- The sharded-counter partition key
`'{scope}#LABEL#{model_label}#SH#{shard_id}'`. -/
def shard_key (scope model_label : String) (shard_id : Nat) : String :=
  scope ++ "#LABEL#" ++ model_label ++ "#SH#" ++ toString shard_id

/-- The daily-total partition key `'{scope}#LABEL#{model_label}'`. -/
def usage_total_key (scope model_label : String) : String :=
  scope ++ "#LABEL#" ++ model_label

/-- `DynamoDBBridge.update_usage_shard`: a single conditional
`update_item` at `(shard_key, day)` guarded by
`NOT contains(request_ids, :req_id) OR attribute_not_exists(request_ids)`.
On guard success the four counters are incremented, the request id is
added to the set and `updated_at_epoch` is refreshed; on guard failure
(`ConditionalCheckFailedException`) the write is a no-op (idempotent). -/
def update_usage_shard (scope day model_label : String) (shard_id : Nat)
    (cost_usd_micros input_tokens output_tokens requests : Nat)
    (request_id : String) (now : Nat) (store : UsageStore) : UsageStore :=
  let k : Key := (shard_key scope model_label shard_id, day)
  match kvGet store k with
  | some cell =>
      if request_id ∈ cell.request_ids then store
      else kvSet store k
        { cost_usd_micros := cell.cost_usd_micros + cost_usd_micros
          input_tokens := cell.input_tokens + input_tokens
          output_tokens := cell.output_tokens + output_tokens
          requests := cell.requests + requests
          request_ids := cell.request_ids ++ [request_id]
          updated_at_epoch := now }
  | none =>
      kvSet store k
        { cost_usd_micros := cost_usd_micros
          input_tokens := input_tokens
          output_tokens := output_tokens
          requests := requests
          request_ids := [request_id]
          updated_at_epoch := now }

/-- `DynamoDBBridge.get_usage_shards`: one `batch_get_item` over the
`shard_count` keys `(scope#LABEL#label#SH#i, day)` for `i < shard_count`;
the response lists only the items that exist. -/
def get_usage_shards (scope day model_label : String) (shard_count : Nat)
    (store : UsageStore) : List UsageCell :=
  (List.range shard_count).filterMap fun i =>
    kvGet store (shard_key scope model_label i, day)

/-- `DynamoDBBridge.get_daily_total`: a single `get_item` on the
materialised `DailyTotal` table at `(scope#LABEL#label, day)` — it does
not touch the shard table. -/
def get_daily_total (scope day model_label : String)
    (totals : TotalsStore) : Option TotalsCell :=
  kvGet totals (usage_total_key scope model_label, day)

/-- The all-zero total. -/
def totals_zero : TotalsCell := ⟨0, 0, 0, 0⟩

/-- Componentwise addition of totals. -/
def totals_add (a b : TotalsCell) : TotalsCell :=
  ⟨a.cost_usd_micros + b.cost_usd_micros, a.input_tokens + b.input_tokens,
   a.output_tokens + b.output_tokens, a.requests + b.requests⟩

/-- The counter components of a shard cell. -/
def cell_totals (c : UsageCell) : TotalsCell :=
  ⟨c.cost_usd_micros, c.input_tokens, c.output_tokens, c.requests⟩

/-- Modelled from the spec: the read-time shard fan-in — "reads all
`shard_count` keys in a single batch and sums componentwise. Missing
shards count as zero."  The summing projector is not part of the
repository sources (`src` only declares `get_usage_shards` and
`put_daily_total`; nothing in `src` sums shard cells), so the summation
over the batch read is taken from the spec's words. -/
def daily_total_from_shards (scope day model_label : String)
    (shard_count : Nat) (store : UsageStore) : TotalsCell :=
  ((get_usage_shards scope day model_label shard_count store).map
    cell_totals).foldl totals_add totals_zero

/-- The contribution of shard `i` to the daily total: its counters if the
cell exists, zero otherwise. -/
def shard_totals (scope day model_label : String) (i : Nat)
    (store : UsageStore) : TotalsCell :=
  (kvGet store (shard_key scope model_label i, day)).elim totals_zero
    cell_totals

/-! ## Sticky-fallback state

`DynamoDBBridge.put_sticky_state` is a conditional `put_item` on the
`(scope_key, date_key)` item of the sticky-state table with condition
`attribute_not_exists(active_model_label) OR active_model_index <
:new_index`.  Claims C4 and C5 are per `(scope, day)`, so the state is
embedded as the single `Option` cell at that key. -/

/-- A sticky-state item as written by `put_sticky_state`. -/
structure StickyItem where
  active_model_label : String
  active_model_index : Nat
  reason : String
  activated_at_epoch : Nat
  previous_model_label : Option String
deriving DecidableEq

/-- `DynamoDBBridge.put_sticky_state` at one `(scope, day)` cell: the
conditional put succeeds (returning `true`) when no item exists or the
stored `active_model_index` is strictly below the new one, replacing the
whole item; a failed condition leaves the item unchanged and returns
`false`. -/
def put_sticky_state (item : StickyItem) (stored : Option StickyItem) :
    Option StickyItem × Bool :=
  match stored with
  | none => (some item, true)
  | some s =>
      if s.active_model_index < item.active_model_index then (some item, true)
      else (some s, false)

/-- A sequence of `put_sticky_state` writes against the same
`(scope, day)` cell, applied in order. -/
def apply_sticky_writes (ws : List StickyItem)
    (stored : Option StickyItem) : Option StickyItem :=
  ws.foldl (fun st w => (put_sticky_state w st).1) stored

/-! ## Pricing -/

/-- A pricing record: micro-USD prices per 1,000,000 tokens. -/
structure Pricing where
  input_price_usd_micros_per_1m : Nat
  output_price_usd_micros_per_1m : Nat
deriving DecidableEq

/-- `PricingService.calculate_cost`:
`(input_tokens * input_price_per_1m) // 1_000_000
 + (output_tokens * output_price_per_1m) // 1_000_000`
in exact integer arithmetic (each quotient floored separately). -/
def calculate_cost (input_tokens output_tokens
    input_price_per_1m output_price_per_1m : Nat) : Nat :=
  input_tokens * input_price_per_1m / 1000000 +
    output_tokens * output_price_per_1m / 1000000

/-! ## Timestamp validation at the usage-submission interface

Two layers run in sequence on `POST /orgs/{o}/apps/{a}/usage`:
the request model's `UsageSubmissionRequest.validate_timestamp`
(`if v > datetime.now(utc): raise ValueError`), then
`MeteringService.submit_usage`'s window check
(reject when `(timestamp - now) > 300` seconds or `< -86400` seconds).
Timestamps are embedded as epoch seconds (`Int`). -/

/-- `UsageSubmissionRequest.validate_timestamp`: the pydantic field
validator accepts iff the timestamp is not in the future. -/
def validate_timestamp (now ts : Int) : Bool := decide (ts ≤ now)

/-- The window check inside `MeteringService.submit_usage`: accept iff
`timestamp - now` is at most 300 seconds and at least -86400 seconds. -/
def metering_timestamp_ok (now ts : Int) : Bool :=
  decide (ts - now ≤ 300) && decide (-86400 ≤ ts - now)

/-- The composed acceptance at the public usage-submission interface:
the request-model validator runs first, then the metering window. -/
def usage_timestamp_accepted (now ts : Int) : Bool :=
  validate_timestamp now ts && metering_timestamp_ok now ts

/-! ## Model selection (`get_model_selection` in
`src/api/routes/model_selection.py`)

The handler reads configuration, the per-label daily totals and the
sticky state, and picks a label.  Its only store operations are reads:
the route module contains no call to `put_sticky_state`.  To make that
observable, the embedding returns the sticky cell alongside the
response. -/

/-- The parts of the selection response the claims are about. -/
structure Selection where
  label : String
  reason : String
  sticky_fallback_active : Bool
deriving DecidableEq

/-- The first-under-quota scan: the loop
`for label in model_ordering: if spend < quota: break`, with
`quota = quotas.get(label, 0)` and
`spend = usage.get(label, {}).get('cost_usd_micros', 0)`. -/
def first_under_quota (model_ordering : List String)
    (quotas usage_cost : String → Nat) : Option String :=
  model_ordering.find? fun l => decide (usage_cost l < quotas l)

/-- The recommendation logic of `get_model_selection`: a stored sticky
state wins with reason `STICKY_FALLBACK`; otherwise the first
under-quota label with reason `NORMAL`; otherwise
`QuotaExceededException` (`.error ()`).  The returned first component is
the sticky cell after the request — the handler performs no write, so it
is the input cell in every branch, exactly as in the source. -/
def get_model_selection (model_ordering : List String)
    (quotas usage_cost : String → Nat) (sticky : Option StickyItem) :
    Option StickyItem × Except Unit Selection :=
  match sticky with
  | some s => (some s, .ok ⟨s.active_model_label, "STICKY_FALLBACK", true⟩)
  | none =>
      match first_under_quota model_ordering quotas usage_cost with
      | some l => (none, .ok ⟨l, "NORMAL", false⟩)
      | none => (none, .error ())

/-! ## Authentication (`src/api/routes/auth.py`)

bcrypt verification (`JWTHandler.verify_secret`) is an external
collaborator and is passed in as a function `verify : presented → hash →
Bool`.  Token signing is irrelevant to the claims; what matters is the
claim set a minted access token carries (`JWTHandler.create_access_token`
puts `sub = client_id`, `org_id`, and `app_id` when present, with
`token_type = "access"`). -/

/-- Python's `str.find(needle)` on character lists: index of the first
occurrence, `none` when absent.  Python strings index by code point, so
all string surgery below works on `String.data`. -/
def findSub (needle : List Char) : List Char → Option Nat
  | [] => if needle.isEmpty then some 0 else none
  | c :: rest =>
      if needle.isPrefixOf (c :: rest) then some 0
      else (findSub needle rest).map (· + 1)

/-- Python slicing `s[:n]` (by code points). -/
def strTake (s : String) (n : Nat) : String := String.mk (s.data.take n)

/-- Python slicing `s[n:]` (by code points). -/
def strDrop (s : String) (n : Nat) : String := String.mk (s.data.drop n)

/-- Python `s.startswith(pre)`. -/
def strStartsWith (s pre : String) : Bool := pre.data.isPrefixOf s.data

/-- Python `s.split(sep)` for a one-character separator. -/
def splitOnChar (sep : Char) : List Char → List (List Char)
  | [] => [[]]
  | c :: rest =>
      let r := splitOnChar sep rest
      if c = sep then [] :: r
      else
        match r with
        | [] => [[c]]
        | h :: t => (c :: h) :: t

/-- Python `s.split('-')` and friends, as strings. -/
def python_split (s : String) (sep : Char) : List String :=
  (splitOnChar sep s.data).map String.mk

/-- Decidable equality for `Except` results, used by the concrete
counterexamples. -/
instance {ε α : Type} [DecidableEq ε] [DecidableEq α] :
    DecidableEq (Except ε α) := fun a b =>
  match a, b with
  | .error e, .error f =>
      if h : e = f then .isTrue (by rw [h]) else .isFalse (by simp [h])
  | .ok x, .ok y =>
      if h : x = y then .isTrue (by rw [h]) else .isFalse (by simp [h])
  | .error _, .ok _ => .isFalse (by simp)
  | .ok _, .error _ => .isFalse (by simp)

/-- The claims of a minted access token that the spec's claims mention. -/
structure AccessClaims where
  sub : String
  org_id : String
  app_id : Option String
  token_type : String
deriving DecidableEq

/-- `JWTHandler.create_access_token`: `sub = client_id`, the given
`org_id`, `token_type = "access"`; the `app_id` claim is added only
when `app_id` is truthy (present and non-empty, Python `if app_id:`). -/
def create_access_token (client_id org_id : String)
    (app_id : Option String) : AccessClaims :=
  ⟨client_id, org_id, if app_id.getD "" = "" then none else app_id,
    "access"⟩

/-- The error taxonomy of the token endpoints. -/
inductive AuthErr
  | invalidClientIdFormat
  | invalidCredentials
  | invalidTokenType
  | tokenRevoked
deriving DecidableEq

/-- The client-id parse in `obtain_token`: require the `org-` prefix,
then split the remainder at the first `-app-` if present
(`remaining[:app_idx]` / `remaining[app_idx+5:]`), else the whole
remainder is the org id. -/
def parse_client_id (client_id : String) :
    Except AuthErr (String × Option String) :=
  if strStartsWith client_id "org-" then
    let remaining := strDrop client_id 4
    match findSub "-app-".data remaining.data with
    | some i => .ok (strTake remaining i, some (strDrop remaining (i + 5)))
    | none => .ok (remaining, none)
  else .error .invalidClientIdFormat

/-- The credential fields of an org/app config record that
`obtain_token` reads (and the `old_secret_hash` that `rotate` stores but
`obtain_token` never consults). -/
structure CredConfig where
  client_id : Option String
  client_secret_hash : Option String
  old_secret_hash : Option String
  client_secret_rotation_grace_expires_at_epoch : Option Int
deriving DecidableEq

/-- `obtain_token` (`POST /auth/token`), up to the decision to mint:
parse the client id, load the org or app config, compare `client_id`,
then verify the presented secret against `client_secret_hash` only.  The
grace-period branch in the source reads
`client_secret_rotation_grace_expires_at_epoch` and does nothing
(`pass`): the old hash is never consulted, and the branch is reachable
only after the new hash already verified.  On success the endpoint mints
tokens for `(org_id, app_id)`. -/
def obtain_token (verify : String → String → Bool)
    (getOrg : String → Option CredConfig)
    (getApp : String → String → Option CredConfig)
    (client_id client_secret : String) :
    Except AuthErr (String × Option String) := do
  let (org_id, app_id) ← parse_client_id client_id
  let cfg ← if app_id.getD "" ≠ "" then
      match getApp org_id (app_id.getD "") with
      | some c => Except.ok c
      | none => Except.error AuthErr.invalidCredentials
    else
      match getOrg org_id with
      | some c => Except.ok c
      | none => Except.error AuthErr.invalidCredentials
  if cfg.client_id ≠ some client_id then
    throw AuthErr.invalidCredentials
  else
    match cfg.client_secret_hash with
    | none => throw AuthErr.invalidCredentials
    | some stored_hash =>
        if verify client_secret stored_hash then
          pure (org_id, app_id)
        else
          throw AuthErr.invalidCredentials

/-- The subject re-parse inside `refresh_token`
(`POST /auth/refresh`): `org_id = client_id.split('-')[1]` and
`app_id = client_id[app_idx+5:]` when `'app' in client_id` and
`client_id.find('-app-') > 0`. -/
def refresh_identity (sub : String) : String × Option String :=
  let org_id := (python_split sub '-').getD 1 ""
  let app_id :=
    if (findSub "app".data sub.data).isSome then
      match findSub "-app-".data sub.data with
      | some i => if 0 < i then some (strDrop sub (i + 5)) else none
      | none => none
    else none
  (org_id, app_id)

/-- `refresh_token`: given the decoded payload's `token_type`, `jti` and
`sub` and the revocation store, check the type and revocation list, then
mint an access token from the re-parsed subject. -/
def refresh_token (revoked : String → Bool)
    (token_type jti sub : String) : Except AuthErr AccessClaims :=
  if token_type ≠ "refresh" then .error .invalidTokenType
  else if revoked jti then .error .tokenRevoked
  else
    let (org_id, app_id) := refresh_identity sub
    .ok (create_access_token sub org_id app_id)

/-! ## The usage-submission pipeline (`MeteringService.submit_usage`)

The source performs, in order: org-config load, app-config merge,
label-in-ordering check, label resolution (registered inference profile
first, then the static `model_labels` pricebook), the calling-region
requirement and region-map lookup for profile labels — and then the
pricing call.  That call,
`self.pricing_service.get_pricing(bedrock_model_id=..., date=...,
region=pricing_region)`, passes a `region` keyword argument that
`PricingService.get_pricing(self, bedrock_model_id, date)` does not
accept, so Python raises `TypeError` on every invocation (`region=None`
raises just the same).  The cost computation, the timestamp window
check, the shard selection and the single conditional shard write that
follow in the source text are therefore unreachable through the
repository's own wiring (the usage route always constructs the real
`PricingService`); only test code that replaces `get_pricing` with a
mock can get past this line.  The embedding keeps each step in source
order, with the pricing step the unconditional error it is; only the
final write touches the usage store.

Configuration dicts are embedded as structures whose optional fields
mirror `dict.get` with its defaults.  The wall clock and the config
reads are parameters bundled in `SubmitEnv` (in the source they are
reads of other tables or of the process clock, none of which the claims
quantify over); `pricingOf` embeds `PricingService.get_pricing`'s own
`(model_id, date)` three-tier lookup, which the submission pipeline
never succeeds in calling. -/

/-- The org-config fields `submit_usage` reads, with `dict.get`
semantics: `quota_scope` defaults to `'ORG'`, `model_ordering` to `[]`,
`agg_shard_count` to `8`; `timezone` is accessed with `[]` (required). -/
structure OrgConfig where
  timezone : String
  quota_scope : Option String
  model_ordering : Option (List String)
  agg_shard_count : Option Nat
deriving DecidableEq

/-- The app-config overrides: `effective_config.update(app_config)`
replaces exactly the keys the app record carries. -/
structure AppConfig where
  timezone : Option String
  quota_scope : Option String
  model_ordering : Option (List String)
  agg_shard_count : Option Nat
deriving DecidableEq

/-- `{**org_config, **app_config}`: per-key override of the org config
by the app config. -/
def merge_config (org : OrgConfig) : Option AppConfig → OrgConfig
  | none => org
  | some a =>
      { timezone := a.timezone.getD org.timezone
        quota_scope := a.quota_scope <|> org.quota_scope
        model_ordering := a.model_ordering <|> org.model_ordering
        agg_shard_count := a.agg_shard_count <|> org.agg_shard_count }

/-- `MeteringService._compute_scope`: note the source passes the *org*
config (not the merged one) here, and defaults `quota_scope` to `ORG`. -/
def compute_scope (org : OrgConfig) (org_id app_id : String) : String :=
  if org.quota_scope.getD "ORG" = "ORG" then "ORG#" ++ org_id
  else "ORG#" ++ org_id ++ "#APP#" ++ app_id

/-- A registered inference profile for one `(org, app, label)`:
the ARN and the `region → model-id` map. -/
structure ProfileRec where
  inference_profile_arn : String
  model_arns : List (String × String)
deriving DecidableEq

/-- A static pricebook entry in `config.yaml`'s `model_labels`:
`type` defaults to `'model'`; `id` is the identifier. -/
structure ModelLabelCfg where
  type : Option String
  id : String
deriving DecidableEq

/-- The resolved label: `type ∈ {"model", "profile"}` plus the
identifier. -/
structure LabelInfo where
  type : String
  identifier : String
deriving DecidableEq

/-- `MeteringService._resolve_label`: registered inference profiles win
over the static `model_labels` map; an unknown label raises. -/
def resolve_label (profileOf : String → Option ProfileRec)
    (model_labels : String → Option ModelLabelCfg) (model_label : String) :
    Except Unit LabelInfo :=
  match profileOf model_label with
  | some p => .ok ⟨"profile", p.inference_profile_arn⟩
  | none =>
      match model_labels model_label with
      | some mc => .ok ⟨mc.type.getD "model", mc.id⟩
      | none => .error ()

/-- The error exits of `submit_usage`, in the order the source text
raises them.  `pricingTypeError` is the `TypeError` raised by the
`region=` keyword at the `get_pricing` call site; the exits after it
(`pricingMissing`, the timestamp pair) appear in the source text but
are unreachable behind it. -/
inductive SubmitError
  | orgNotFound
  | labelNotConfigured
  | unknownLabel
  | callingRegionRequired
  | profileNotRegistered
  | unsupportedRegion
  | pricingTypeError
  | pricingMissing
  | timestampTooFuture
  | timestampTooPast
deriving DecidableEq

/-- One usage submission's inputs (after request validation). -/
structure Submission where
  request_id : String
  model_label : String
  bedrock_model_id : String
  input_tokens : Nat
  output_tokens : Nat
  status : String
  timestamp : Int
  calling_region : Option String
deriving DecidableEq

/-- The environment `submit_usage` reads: config records, the profile
registry for the `(org, app)` pair, the static pricebook, the pricing
store behind `PricingService.get_pricing` (which the pipeline's call
never reaches past the `TypeError`), and the clock (epoch seconds plus
the two pure date renderings the source derives from it and from the
submission timestamp). -/
structure SubmitEnv where
  orgCfg : Option OrgConfig
  appCfg : Option AppConfig
  profileOf : String → Option ProfileRec
  model_labels : String → Option ModelLabelCfg
  pricingOf : String → String → Option Pricing
  nowSec : Int
  dayOf : String → String
  dateOf : Int → String

/-- The accepted-submission response fields the claims mention
(`status` is always `"accepted"`; `shard_id` and `cost_usd_micros` sit
under `processing` in the wire shape). -/
structure SubmitResult where
  request_id : String
  status : String
  shard_id : Nat
  cost_usd_micros : Nat
deriving DecidableEq

/-- Everything `submit_usage` computes before its single write. -/
structure SubmitPlan where
  scope : String
  day : String
  shard_id : Nat
  cost_usd_micros : Nat
deriving DecidableEq

/-- The model-id resolution step of `submit_usage` after
`_resolve_label`: profile labels require `calling_region` and map it
through the registered profile's region map
(`InferenceProfileService.get_model_for_region`); plain model labels
pass the request's `bedrock_model_id` through. -/
def actual_model_id (env : SubmitEnv) (sub : Submission)
    (info : LabelInfo) : Except SubmitError String :=
  if info.type = "profile" then
    match sub.calling_region with
    | none => .error .callingRegionRequired
    | some region =>
        match env.profileOf sub.model_label with
        | none => .error .profileNotRegistered
        | some p =>
            match (p.model_arns.find? fun rm =>
                decide (rm.1 = region)).map Prod.snd with
            | none => .error .unsupportedRegion
            | some mid => .ok mid
  else .ok sub.bedrock_model_id

/-- The validation-and-pricing prefix of `MeteringService.submit_usage`,
in source order.  No step here touches the usage store.  The pricing
step is the call
`self.pricing_service.get_pricing(bedrock_model_id=actual_model_id,
date=..., region=pricing_region)`: `PricingService.get_pricing` has no
`region` parameter, so the call raises `TypeError` for model and
profile labels alike and the checks can never return a plan — the cost
computation, timestamp window, shard selection and `.ok` result that
follow it in the source text sit behind this unconditional raise. -/
def submit_checks (env : SubmitEnv) (_org_id _app_id : String)
    (sub : Submission) : Except SubmitError SubmitPlan :=
  match env.orgCfg with
  | none => .error .orgNotFound
  | some org =>
      if sub.model_label ∈ (merge_config org env.appCfg).model_ordering.getD [] then
        match resolve_label env.profileOf env.model_labels sub.model_label with
        | .error _ => .error .unknownLabel
        | .ok info =>
            match actual_model_id env sub info with
            | .error e => .error e
            | .ok _mid => .error .pricingTypeError
      else .error .labelNotConfigured

/-- `MeteringService.submit_usage`: run the checks; on any error the
exception propagates with the store untouched, else perform the single
conditional shard write (`update_usage_shard` with the server-computed
cost, the token counts, `requests = 1` and the request id) and return
`"accepted"`.  The `.ok` branch mirrors the source text of lines
232-263; since `submit_checks` always errors at the pricing call, that
branch is unreachable, exactly as in the repository's wiring.  The
response's `daily_total` echo is a read of the `DailyTotal` table and
does not affect any store. -/
def submit_usage (env : SubmitEnv) (org_id app_id : String)
    (sub : Submission) (store : UsageStore) :
    UsageStore × Except SubmitError SubmitResult :=
  match submit_checks env org_id app_id sub with
  | .error e => (store, .error e)
  | .ok plan =>
      (update_usage_shard plan.scope plan.day sub.model_label plan.shard_id
        plan.cost_usd_micros sub.input_tokens sub.output_tokens 1
        sub.request_id env.nowSec.toNat store,
       .ok ⟨sub.request_id, "accepted", plan.shard_id, plan.cost_usd_micros⟩)

/-- `n` successive submissions of the same record (the store after the
`n`-th retry). -/
def submit_iter (env : SubmitEnv) (org_id app_id : String)
    (sub : Submission) : Nat → UsageStore → UsageStore
  | 0, store => store
  | n + 1, store =>
      (submit_usage env org_id app_id sub
        (submit_iter env org_id app_id sub n store)).1

/-! ## Concrete fixtures used by witnesses and counterexamples -/

/-- A one-org environment: label `premium` priced 3 / 15 USD per 1M
tokens for model `m1`, two shards, UTC, org scope. -/
def exEnv : SubmitEnv where
  orgCfg := some ⟨"UTC", some "ORG", some ["premium"], some 2⟩
  appCfg := none
  profileOf := fun _ => none
  model_labels := fun l =>
    if l = "premium" then some ⟨some "model", "m1"⟩ else none
  pricingOf := fun mid _ =>
    if mid = "m1" then some ⟨3000000, 15000000⟩ else none
  nowSec := 1000000
  dayOf := fun _ => "20260101"
  dateOf := fun _ => "2026-01-01"

/-- A submission of 1,000,000 input tokens with `status = OK`. -/
def exSubOk : Submission :=
  ⟨"r1", "premium", "m1", 1000000, 0, "OK", 1000000, none⟩

/-- The same record with `status = ERROR`. -/
def exSubErr : Submission :=
  ⟨"r1", "premium", "m1", 1000000, 0, "ERROR", 1000000, none⟩

/-- A shard store holding one populated cell for shard 0. -/
def exShardStore : UsageStore :=
  [((shard_key "ORG#o" "premium" 0, "DAY#20260101"), ⟨5, 10, 20, 1, ["rX"], 0⟩)]

/-- Per-label quotas: premium 10, standard 20 (micro-USD). -/
def exQuotas : String → Nat := fun l =>
  if l = "premium" then 10 else if l = "standard" then 20 else 0

/-- Per-label spend: premium has exactly reached its quota. -/
def exUsage : String → Nat := fun l => if l = "premium" then 10 else 0

/-- A bcrypt stand-in for the concrete credential runs: a presented
secret verifies against exactly the hash `"hash:" ++ secret`. -/
def exVerify : String → String → Bool := fun p h => h = "hash:" ++ p

/-- A credential record mid-rotation: current hash for secret `new`,
previous hash for secret `old`, grace expiring at epoch 9999. -/
def exCred : CredConfig :=
  ⟨some "org-b", some "hash:new", some "hash:old", some 9999⟩

/-! ## Store lemmas -/

/-- Reading back the key just written. -/
theorem kvGet_kvSet_self {α : Type} (store : List (Key × α)) (k : Key)
    (v : α) : kvGet (kvSet store k v) k = some v := by
  simp [kvGet, kvSet]

/-- The second application of the same conditional shard update is a
no-op: after the first write the request id is in the cell's
`request_ids`, so the condition fails. -/
theorem update_usage_shard_idem (scope day model_label : String)
    (shard_id cost i o req : Nat) (rid : String) (n1 n2 : Nat)
    (store : UsageStore) :
    update_usage_shard scope day model_label shard_id cost i o req rid n2
      (update_usage_shard scope day model_label shard_id cost i o req rid n1
        store) =
    update_usage_shard scope day model_label shard_id cost i o req rid n1
      store := by
  unfold update_usage_shard
  cases h : kvGet store (shard_key scope model_label shard_id, day) with
  | none => simp [h, kvGet_kvSet_self]
  | some cell =>
      by_cases hmem : rid ∈ cell.request_ids
      · simp [h, hmem]
      · simp [h, hmem, kvGet_kvSet_self]

/-! ## Claim C2 — cost arithmetic -/

/-- Claim C2, counterexample: the claim applies a single floor division
to the summed products (and quantifies over all non-negative token
counts and prices), but `PricingService.calculate_cost` floors each
product's quotient separately before summing.  At one input token and
one output token priced 0.5 USD per 1M tokens each, the code's cost
function computes 0 while the claim's formula gives 1. -/
theorem calculate_cost_single_floor_counterexample :
    calculate_cost 1 1 500000 500000 ≠ (1 * 500000 + 1 * 500000) / 1000000 := by
  decide

/-- No run of the validation prefix ever produces a plan: every branch
of `submit_checks` ends in an error, the deepest being the pricing-call
`TypeError`. -/
theorem submit_checks_always_errors (env : SubmitEnv)
    (org_id app_id : String) (sub : Submission) :
    ∃ e, submit_checks env org_id app_id sub = .error e := by
  unfold submit_checks
  repeat' split
  all_goals exact ⟨_, rfl⟩

/-- Claim C2 as amended: in the repository's wiring no usage submission
is ever accepted — `submit_usage` always raises before any store write,
because its pricing call passes a `region` keyword that
`PricingService.get_pricing` does not accept — so the claim's
per-accepted-submission quantifier is vacuous; and the cost function
the service defines, `PricingService.calculate_cost`, floors each of
the two quotients separately before summing (section 4.D's formula),
not once over the sum (P4's formula). -/
theorem submit_usage_never_accepts (env : SubmitEnv)
    (org_id app_id : String) (sub : Submission) (store : UsageStore)
    (p q : Nat) :
    (∃ e, submit_usage env org_id app_id sub store = (store, .error e)) ∧
    calculate_cost sub.input_tokens sub.output_tokens p q =
      sub.input_tokens * p / 1000000 + sub.output_tokens * q / 1000000 := by
  refine ⟨?_, rfl⟩
  obtain ⟨e, he⟩ := submit_checks_always_errors env org_id app_id sub
  exact ⟨e, by unfold submit_usage; rw [he]⟩

/-! ## Claim C7 — ERROR-status submissions -/

/-- Claim C7, counterexample: the claim says an ERROR-status submission
is persisted with token and request counters updated and zero cost
added; in the code nothing is persisted at all — this ERROR submission
dies with the pricing-call `TypeError` before the shard write, leaving
the store empty (`status` was never read on the way). -/
theorem submit_usage_error_status_counterexample :
    submit_usage exEnv "o" "a" exSubErr [] =
      ([], .error .pricingTypeError) ∧
    exSubErr.status = "ERROR" ∧
    kvGet (submit_usage exEnv "o" "a" exSubErr []).1
        (shard_key "ORG#o" "premium" 0, "DAY#20260101") = none := by
  decide

/-- Claim C7 as amended: `status` does not affect `submit_usage` at all
— an ERROR submission and an otherwise-identical OK submission produce
the identical store and the identical outcome (in the repository's
wiring, the identical pricing-call error with nothing persisted for
either). -/
theorem submit_usage_status_independent (env : SubmitEnv)
    (org_id app_id : String) (sub : Submission) (store : UsageStore)
    (s1 s2 : String) :
    submit_usage env org_id app_id { sub with status := s1 } store =
      submit_usage env org_id app_id { sub with status := s2 } store := rfl

/-! ## Claim C8 — the timestamp window at the public interface -/

/-- Claim C8, divergence run: the claim (and the metering-layer window)
accept `now + 5 min` exactly, but the request model's
`validate_timestamp` rejects every future timestamp first, so at the
public usage-submission interface `now + 300 s` — and even `now + 1 s` —
is rejected; the `-24 h` boundary behaves as claimed. -/
theorem usage_timestamp_window_divergence :
    usage_timestamp_accepted 0 300 = false ∧
    metering_timestamp_ok 0 300 = true ∧
    validate_timestamp 0 300 = false ∧
    usage_timestamp_accepted 0 1 = false ∧
    usage_timestamp_accepted 0 0 = true ∧
    usage_timestamp_accepted 0 (-86400) = true ∧
    usage_timestamp_accepted 0 (-86401) = false := by
  decide

/-! ## Claim C9 — refresh identity -/

/-- Claim C9, divergence run: for a canonical org client id whose uuid
contains hyphens, `refresh_token` re-parses the subject with
`split('-')[1]` and mints an access token whose `org_id` claim is just
the first hyphen-segment of the uuid, while `obtain_token`'s parser
(`parse_client_id`) recovers the full uuid; the `sub` claim is
preserved. -/
theorem refresh_token_org_id_truncated :
    refresh_token (fun _ => false) "refresh" "jti-1"
        "org-123e4567-e89b-42d3-a456-426614174000" =
      .ok ⟨"org-123e4567-e89b-42d3-a456-426614174000", "123e4567", none,
        "access"⟩ ∧
    parse_client_id "org-123e4567-e89b-42d3-a456-426614174000" =
      .ok ("123e4567-e89b-42d3-a456-426614174000", none) ∧
    "123e4567" ≠ "123e4567-e89b-42d3-a456-426614174000" := by
  decide

/-! ## Claim C6 — rotation continuity -/

/-- Claim C6, divergence run: mid-rotation, with the previous hash
stored and the grace window open (`now = 0 < 9999`), presenting the old
secret fails with invalid-credentials because `obtain_token` verifies
only against the current hash (its grace branch is a no-op); the new
secret succeeds.  The claim (and spec law L4) demand that the old secret
also authenticate during grace. -/
theorem obtain_token_ignores_old_hash_during_grace :
    obtain_token exVerify (fun o => if o = "b" then some exCred else none)
        (fun _ _ => none) "org-b" "old" = .error .invalidCredentials ∧
    exVerify "old" "hash:old" = true ∧
    exCred.old_secret_hash = some "hash:old" ∧
    exCred.client_secret_rotation_grace_expires_at_epoch = some 9999 ∧
    ((0 : Int) < 9999) = True ∧
    obtain_token exVerify (fun o => if o = "b" then some exCred else none)
        (fun _ _ => none) "org-b" "new" = .ok ("b", none) := by
  decide

/-! ## Claim C4 — inline sticky activation -/

/-- Claim C4, counterexample: ladder `[premium, standard]`, premium at
exactly its quota, no stored sticky state.  The claim says this
selection request writes `sticky_at(1, QUOTA_EXCEEDED)` and reports the
sticky-fallback reason; the handler instead leaves the sticky cell empty
(`none`) and reports `standard` with reason `NORMAL` — the route never
calls `put_sticky_state`. -/
theorem get_model_selection_no_write_counterexample :
    get_model_selection ["premium", "standard"] exQuotas exUsage none =
      (none, .ok ⟨"standard", "NORMAL", false⟩) ∧
    exQuotas "premium" ≤ exUsage "premium" := by
  decide

/-- Claim C4 as amended: the selection handler is read-only on the
sticky cell; with no stored state it returns the first-under-quota label
with reason `NORMAL` (or quota-exceeded when none is under quota), and a
stored state always wins with reason `STICKY_FALLBACK`.  Sticky
activation is never performed by the selection operation. -/
theorem get_model_selection_read_only (model_ordering : List String)
    (quotas usage_cost : String → Nat) (sticky : Option StickyItem)
    (l : String) (s : StickyItem) :
    (get_model_selection model_ordering quotas usage_cost sticky).1 =
      sticky ∧
    (sticky = none →
      first_under_quota model_ordering quotas usage_cost = some l →
      (get_model_selection model_ordering quotas usage_cost sticky).2 =
        .ok ⟨l, "NORMAL", false⟩) ∧
    (sticky = some s →
      (get_model_selection model_ordering quotas usage_cost sticky).2 =
        .ok ⟨s.active_model_label, "STICKY_FALLBACK", true⟩) ∧
    (sticky = none →
      first_under_quota model_ordering quotas usage_cost = none →
      (get_model_selection model_ordering quotas usage_cost sticky).2 =
        .error ()) := by
  refine ⟨?_, ?_, ?_, ?_⟩
  · cases sticky with
    | none =>
        unfold get_model_selection
        cases h : first_under_quota model_ordering quotas usage_cost <;>
          simp [h]
    | some t => rfl
  · rintro rfl h
    unfold get_model_selection
    rw [h]
  · rintro rfl
    rfl
  · rintro rfl h
    unfold get_model_selection
    rw [h]

/-- Witness for `get_model_selection_read_only` on the concrete ladder:
with no stored state, `standard` is recommended with reason `NORMAL`
and the sticky cell stays empty. -/
theorem get_model_selection_read_only_witness :
    (get_model_selection ["premium", "standard"] exQuotas exUsage none).1 =
      none ∧
    (get_model_selection ["premium", "standard"] exQuotas exUsage none).2 =
      .ok ⟨"standard", "NORMAL", false⟩ :=
  ⟨(get_model_selection_read_only ["premium", "standard"] exQuotas exUsage
      none "standard" ⟨"", 0, "", 0, none⟩).1,
   (get_model_selection_read_only ["premium", "standard"] exQuotas exUsage
      none "standard" ⟨"", 0, "", 0, none⟩).2.1 rfl (by decide)⟩

/-! ## Claim C3 — read fan-in -/

/-- Claim C3, counterexample: a state where shard 0 of
`(ORG#o, DAY#20260101, premium)` holds counters `(5, 10, 20, 1)` but the
materialised `DailyTotal` table is empty.  The claim says
`get_daily_total` reads the `shard_count` shard keys and returns their
componentwise sum `(5, 10, 20, 1)`; the code's `get_daily_total` is a
single `get_item` on the `DailyTotal` table and returns nothing here. -/
theorem get_daily_total_not_shard_sum_counterexample :
    get_daily_total "ORG#o" "DAY#20260101" "premium" [] = none ∧
    daily_total_from_shards "ORG#o" "DAY#20260101" "premium" 8
      exShardStore = ⟨5, 10, 20, 1⟩ := by
  decide

/-- Claim C3 as amended: the batch shard read (`get_usage_shards`)
covers exactly the `shard_count` shard keys, and summing the returned
cells componentwise — the fan-in the spec requires, performed outside
this repository — yields, for each of the four components, the sum over
all `shard_count` shards with missing shards contributing zero.
`DynamoDBBridge.get_daily_total` itself only reads the materialised
`DailyTotal` record. -/
theorem daily_total_from_shards_componentwise (scope day model_label : String)
    (n : Nat) (store : UsageStore) :
    daily_total_from_shards scope day model_label n store =
      ⟨∑ i ∈ Finset.range n,
          (shard_totals scope day model_label i store).cost_usd_micros,
        ∑ i ∈ Finset.range n,
          (shard_totals scope day model_label i store).input_tokens,
        ∑ i ∈ Finset.range n,
          (shard_totals scope day model_label i store).output_tokens,
        ∑ i ∈ Finset.range n,
          (shard_totals scope day model_label i store).requests⟩ ∧
    (∀ totals : TotalsStore,
      get_daily_total scope day model_label totals =
        kvGet totals (usage_total_key scope model_label, day)) := by
  refine ⟨?_, fun _ => rfl⟩
  induction n with
  | zero => rfl
  | succ k ih =>
      unfold daily_total_from_shards get_usage_shards at ih ⊢
      rw [List.range_succ, List.filterMap_append, List.map_append,
        List.foldl_append, ih]
      cases h : kvGet store (shard_key scope model_label k, day) with
      | none =>
          simp [Finset.sum_range_succ, shard_totals, h, totals_zero]
      | some c =>
          simp [Finset.sum_range_succ, shard_totals, h, totals_add,
            cell_totals]

/-! ## Claim C5 — sticky-index monotonicity -/

/-- One conditional write never lowers a stored index. -/
theorem put_sticky_state_step (w s : StickyItem) :
    ∃ t, (put_sticky_state w (some s)).1 = some t ∧
      s.active_model_index ≤ t.active_model_index := by
  unfold put_sticky_state
  by_cases h : s.active_model_index < w.active_model_index
  · exact ⟨w, by simp [h], le_of_lt h⟩
  · exact ⟨s, by simp [h], le_refl _⟩

/-- A write sequence never lowers a stored index. -/
theorem apply_sticky_writes_mono (ws : List StickyItem) :
    ∀ s : StickyItem, ∃ t, apply_sticky_writes ws (some s) = some t ∧
      s.active_model_index ≤ t.active_model_index := by
  induction ws with
  | nil => exact fun s => ⟨s, rfl, le_refl _⟩
  | cons w ws ih =>
      intro s
      obtain ⟨t, ht, hle⟩ := put_sticky_state_step w s
      obtain ⟨u, hu, hle2⟩ := ih t
      refine ⟨u, ?_, le_trans hle hle2⟩
      unfold apply_sticky_writes at hu ⊢
      rw [List.foldl_cons, ht]
      exact hu

/-- Claim C5: over any sequence of `put_sticky_state` writes against one
`(scope, day)` cell, the stored `active_model_index` never decreases;
a single conditional write succeeds exactly when no state exists or the
stored index is strictly below the new one, and a failed conditional
write leaves the stored state unchanged. -/
theorem put_sticky_state_monotone (ws : List StickyItem) (w : StickyItem)
    (stored : Option StickyItem) (s : StickyItem) (hs : stored = some s) :
    (∃ t, apply_sticky_writes ws stored = some t ∧
      s.active_model_index ≤ t.active_model_index) ∧
    ((put_sticky_state w stored).2 = true ↔
      stored = none ∨ ∃ u, stored = some u ∧
        u.active_model_index < w.active_model_index) ∧
    ((put_sticky_state w stored).2 = false →
      (put_sticky_state w stored).1 = stored) := by
  subst hs
  refine ⟨apply_sticky_writes_mono ws s, ?_, ?_⟩
  · unfold put_sticky_state
    by_cases h : s.active_model_index < w.active_model_index <;>
      simp [h]
  · unfold put_sticky_state
    by_cases h : s.active_model_index < w.active_model_index <;>
      simp [h]

/-- Witness for `put_sticky_state_monotone`: starting from a stored
index 1, a write at index 2 advances the state, a write back at index 0
fails its condition and changes nothing. -/
theorem put_sticky_state_monotone_witness :
    (∃ t, apply_sticky_writes [⟨"economy", 2, "QUOTA_EXCEEDED", 5,
        some "standard"⟩] (some ⟨"standard", 1, "QUOTA_EXCEEDED", 0, none⟩) =
          some t ∧
      (⟨"standard", 1, "QUOTA_EXCEEDED", 0, none⟩ : StickyItem).active_model_index ≤
        t.active_model_index) ∧
    ((put_sticky_state ⟨"premium", 0, "QUOTA_EXCEEDED", 9, none⟩
        (some ⟨"standard", 1, "QUOTA_EXCEEDED", 0, none⟩)).2 = true ↔
      (some ⟨"standard", 1, "QUOTA_EXCEEDED", 0, none⟩ :
          Option StickyItem) = none ∨
      ∃ u, (some ⟨"standard", 1, "QUOTA_EXCEEDED", 0, none⟩ :
          Option StickyItem) = some u ∧
        u.active_model_index <
          (⟨"premium", 0, "QUOTA_EXCEEDED", 9, none⟩ :
            StickyItem).active_model_index) ∧
    ((put_sticky_state ⟨"premium", 0, "QUOTA_EXCEEDED", 9, none⟩
        (some ⟨"standard", 1, "QUOTA_EXCEEDED", 0, none⟩)).2 = false →
      (put_sticky_state ⟨"premium", 0, "QUOTA_EXCEEDED", 9, none⟩
        (some ⟨"standard", 1, "QUOTA_EXCEEDED", 0, none⟩)).1 =
        some ⟨"standard", 1, "QUOTA_EXCEEDED", 0, none⟩) :=
  put_sticky_state_monotone [⟨"economy", 2, "QUOTA_EXCEEDED", 5,
    some "standard"⟩] ⟨"premium", 0, "QUOTA_EXCEEDED", 9, none⟩
    (some ⟨"standard", 1, "QUOTA_EXCEEDED", 0, none⟩)
    ⟨"standard", 1, "QUOTA_EXCEEDED", 0, none⟩ rfl

/-! ## Claim C10 — error atomicity of `submit_usage` -/

/-- Claim C10: whenever `submit_usage` raises (unknown organization,
label not in the effective ordering, unknown label, missing
calling-region for a profile label, unsupported region, missing pricing,
or an out-of-range timestamp), no usage-shard cell is created or
modified — the returned store is the input store, because every error
exit lies in the validation prefix (`submit_checks`) that precedes the
single conditional shard write. -/
theorem submit_usage_error_atomic (env : SubmitEnv) (org_id app_id : String)
    (sub : Submission) (store : UsageStore) (e : SubmitError)
    (h : (submit_usage env org_id app_id sub store).2 = .error e) :
    (submit_usage env org_id app_id sub store).1 = store ∧
    submit_checks env org_id app_id sub = .error e := by
  unfold submit_usage at h ⊢
  cases hcc : submit_checks env org_id app_id sub with
  | error e2 =>
      rw [hcc] at h
      simp only at h
      cases h
      exact ⟨rfl, rfl⟩
  | ok plan =>
      rw [hcc] at h
      simp at h

/-- Witness for `submit_usage_error_atomic`: with the organization
record absent, a submission against a populated shard store errors with
org-not-found and leaves the store untouched. -/
theorem submit_usage_error_atomic_witness :
    (submit_usage { exEnv with orgCfg := none } "o" "a" exSubOk
      exShardStore).1 = exShardStore ∧
    submit_checks { exEnv with orgCfg := none } "o" "a" exSubOk =
      .error .orgNotFound :=
  submit_usage_error_atomic { exEnv with orgCfg := none } "o" "a" exSubOk
    exShardStore .orgNotFound (by decide)

/-! ## Claim C1 — idempotence of usage submission -/

/-- Claim C1, divergence run: this fully configured concrete submission
(organization present, label in the ordering, model priced in the
static pricebook) fails with the pricing-call `TypeError` and writes
nothing, and its retry does the same — no submission, first or repeat,
ever returns `"accepted"` in the repository's wiring, against the
idempotent-accept contract of the claim, of spec law L1 and of the
usage route's own docstring.  The mechanism the claim names is
otherwise in place: the conditional shard update is a no-op when
repeated with the same request id (third conjunct), and `select_shard`
is a pure function of the request id landing in `0..shard_count-1`
(fourth conjunct). -/
theorem submit_usage_idempotence_unreachable :
    submit_usage exEnv "o" "a" exSubOk [] =
      ([], .error .pricingTypeError) ∧
    submit_iter exEnv "o" "a" exSubOk 2 [] = [] ∧
    (∀ (scope day model_label : String)
      (shard_id cost i o req : Nat) (rid : String) (n1 n2 : Nat)
      (store : UsageStore),
      update_usage_shard scope day model_label shard_id cost i o req rid n2
        (update_usage_shard scope day model_label shard_id cost i o req rid
          n1 store) =
      update_usage_shard scope day model_label shard_id cost i o req rid n1
        store) ∧
    (∀ (rid : String) (n : Nat), select_shard rid (n + 1) ≤ n) :=
  ⟨by decide, by decide, update_usage_shard_idem,
   fun _ n => Nat.lt_succ_iff.mp (Nat.mod_lt _ (Nat.succ_pos n))⟩

end BCK
